import Mathlib

/-!
Verification of the tee-morphosis extraction-and-compositing engine.

The Rust sources under `src/` are shallowly embedded here:

* `image::RgbaImage` buffers become `Image`: a width, a height and a
  row-major list of RGBA8 pixels.
* Rust `u32` values become `Nat`; where the source performs `u32`
  addition that can wrap (release-mode overflow), the wrap is written
  explicitly as `% U32`.
* `f32` arithmetic (the HSL conversions and the scale helper) is
  embedded as exact rational arithmetic over `ℚ`; casts `as u8` /
  `as u32` / `as i32` are modelled by their saturating-truncation
  semantics.
* Fallible operations return `Res α`: `ok`, a typed error `err`, or
  `panic` (reached when an `assert!` inside the image crate fires or
  `unreachable!` is hit).
* The fixed-size arrays `[Part; 6]` / `[EyeTypeData; 6]` become
  six-field structures with a `Fin 6` indexed accessor.
-/

namespace TeeMorphosis

/-- `2^32`, the modulus of Rust `u32` arithmetic. -/
def U32 : Nat := 4294967296

/-- One RGBA8 pixel; each channel is a byte value `0..255`. -/
structure Pixel where
  r : Nat
  g : Nat
  b : Nat
  a : Nat
deriving DecidableEq, Repr

/-- The all-zero (fully transparent) pixel. -/
def Pixel.transparent : Pixel := ⟨0, 0, 0, 0⟩

/-- An RGBA pixel buffer (`image::RgbaImage`): dimensions plus the
row-major pixel grid. -/
structure Image where
  width : Nat
  height : Nat
  pixels : List Pixel
deriving DecidableEq, Repr

/-- Pixel lookup at `(x, y)`, row-major. -/
def Image.getPixel (img : Image) (x y : Nat) : Pixel :=
  img.pixels.getD (y * img.width + x) Pixel.transparent

/-- `uv::Part` — a rectangle `{x, y, w, h}` of `u32` fields
(`src/tee/uv.rs`). -/
structure UVPart where
  x : Nat
  y : Nat
  w : Nat
  h : Nat
deriving DecidableEq, Repr

/-- The array `eyes: [Part; 6]` of a `UV`, in source order
`[Normal, Angry, Pain, Happy, Empty, Surprise]`. -/
structure EyeParts where
  p0 : UVPart
  p1 : UVPart
  p2 : UVPart
  p3 : UVPart
  p4 : UVPart
  p5 : UVPart
deriving DecidableEq, Repr

/-- Index into the six eye rectangles. -/
def EyeParts.get (ps : EyeParts) : Fin 6 → UVPart
  | ⟨0, _⟩ => ps.p0
  | ⟨1, _⟩ => ps.p1
  | ⟨2, _⟩ => ps.p2
  | ⟨3, _⟩ => ps.p3
  | ⟨4, _⟩ => ps.p4
  | ⟨5, _⟩ => ps.p5
  | ⟨n + 6, h⟩ => absurd h (by omega)

/-- `uv::UV` — the source-sheet layout (`src/tee/uv.rs`). -/
structure UV where
  body : UVPart
  body_shadow : UVPart
  feet : UVPart
  feet_shadow : UVPart
  hand : UVPart
  hand_shadow : UVPart
  eyes : EyeParts
  container : Nat × Nat
deriving DecidableEq, Repr

/-- `parts::WithShadow` — a part and its shadow (`src/tee/parts.rs`). -/
structure WithShadow where
  value : Image
  shadow : Image
deriving DecidableEq, Repr

/-- `parts::TeePart` (`src/tee/parts.rs`). -/
inductive TeePart where
  | Body
  | BodyShadow
  | Feet
  | FeetShadow
  | Hand
  | HandShadow
deriving DecidableEq, Repr

/-- `parts::EyeTypeData` — an eye-state tag carrying its image
(`src/tee/parts.rs`). -/
inductive EyeTypeData where
  | Normal (img : Image)
  | Angry (img : Image)
  | Pain (img : Image)
  | Happy (img : Image)
  | Empty (img : Image)
  | Surprise (img : Image)
deriving DecidableEq, Repr

/-- `parts::EyeType` (`src/tee/parts.rs`). -/
inductive EyeType where
  | Normal
  | Angry
  | Pain
  | Happy
  | Empty
  | Surprise
deriving DecidableEq, Repr

/-- `EyeType::index` — the fixed ordinal of each eye state
(`src/tee/parts.rs`); always in `0..5`, hence `Fin 6`. -/
def EyeType.index : EyeType → Fin 6
  | .Normal => 0
  | .Angry => 1
  | .Pain => 2
  | .Happy => 3
  | .Empty => 4
  | .Surprise => 5

/-- The variant tag carried by an `EyeTypeData` value. -/
def EyeTypeData.tag : EyeTypeData → EyeType
  | .Normal _ => .Normal
  | .Angry _ => .Angry
  | .Pain _ => .Pain
  | .Happy _ => .Happy
  | .Empty _ => .Empty
  | .Surprise _ => .Surprise

/-- The image carried by an `EyeTypeData` value. -/
def EyeTypeData.img : EyeTypeData → Image
  | .Normal i => i
  | .Angry i => i
  | .Pain i => i
  | .Happy i => i
  | .Empty i => i
  | .Surprise i => i

/-- The array `eye: [EyeTypeData; 6]` of a `Tee`, in source order. -/
structure Eye6 where
  e0 : EyeTypeData
  e1 : EyeTypeData
  e2 : EyeTypeData
  e3 : EyeTypeData
  e4 : EyeTypeData
  e5 : EyeTypeData
deriving DecidableEq, Repr

/-- Index into the six stored eye images. -/
def Eye6.get (es : Eye6) : Fin 6 → EyeTypeData
  | ⟨0, _⟩ => es.e0
  | ⟨1, _⟩ => es.e1
  | ⟨2, _⟩ => es.e2
  | ⟨3, _⟩ => es.e3
  | ⟨4, _⟩ => es.e4
  | ⟨5, _⟩ => es.e5
  | ⟨n + 6, h⟩ => absurd h (by omega)

/-- `error::TeeError`, restricted to the variants the core pipeline can
produce (`src/error.rs`); the codec / network variants wrap external
collaborators and carry no behaviour of this repository. -/
inductive TeeError where
  | OutOfBounds (part : UVPart) (width : Nat) (height : Nat)
  | InvalidDimensions (expected : Nat × Nat) (found : Nat × Nat)
  | InvalidBuilderConfiguration
deriving DecidableEq, Repr

/-- Outcome of a fallible Rust computation: a value, a returned
`TeeError`, or a panic (failed `assert!` / `unreachable!`). -/
inductive Res (α : Type) where
  | ok (val : α)
  | err (e : TeeError)
  | panic
deriving DecidableEq, Repr

/-- The `?` operator: propagate errors and panics. -/
def Res.bind {α β : Type} : Res α → (α → Res β) → Res β
  | .ok a, f => f a
  | .err e, _ => .err e
  | .panic, _ => .panic

/-- `extract_part` (`src/tee.rs`).  The guard
`part.x + part.w > img_width || part.y + part.h > img_height` uses
`u32` addition, which wraps modulo `2^32` in release builds; when the
guard passes, `img.view(x, y, w, h)` re-checks the same bounds with
`u64` (exact) arithmetic and panics if they fail, then `.to_image()`
copies the sub-region row-major. -/
def extract_part (img : Image) (part : UVPart) : Res Image :=
  if (part.x + part.w) % U32 > img.width ∨ (part.y + part.h) % U32 > img.height then
    .err (.OutOfBounds part img.width img.height)
  else if part.x + part.w ≤ img.width ∧ part.y + part.h ≤ img.height then
    .ok { width := part.w
          height := part.h
          pixels := (List.range (part.h * part.w)).map
            (fun i => img.getPixel (part.x + i % part.w) (part.y + i / part.w)) }
  else
    .panic

/-- `validate_image_dimensions` (`src/tee.rs`). -/
def validate_image_dimensions (actual expected : Nat × Nat) : Res Unit :=
  if actual ≠ expected then
    .err (.InvalidDimensions expected actual)
  else
    .ok ()

/-- `extract_with_shadow` (`src/tee.rs`). -/
def extract_with_shadow (img : Image) (part shadow_part : UVPart) : Res WithShadow :=
  (extract_part img part).bind fun value =>
  (extract_part img shadow_part).bind fun shadow =>
  .ok { value, shadow }

/-- `extract_all_eyes` (`src/tee.rs`): the six eye regions extracted in
the fixed order Normal, Angry, Pain, Happy, Empty, Surprise, each
wrapped in its variant tag. -/
def extract_all_eyes (img : Image) (eye_parts : EyeParts) : Res Eye6 :=
  (extract_part img eye_parts.p0).bind fun i0 =>
  (extract_part img eye_parts.p1).bind fun i1 =>
  (extract_part img eye_parts.p2).bind fun i2 =>
  (extract_part img eye_parts.p3).bind fun i3 =>
  (extract_part img eye_parts.p4).bind fun i4 =>
  (extract_part img eye_parts.p5).bind fun i5 =>
  .ok ⟨.Normal i0, .Angry i1, .Pain i2, .Happy i3, .Empty i4, .Surprise i5⟩

/-- `Tee` (`src/tee.rs`). -/
structure Tee where
  body : WithShadow
  feet : WithShadow
  eye : Eye6
  hand : WithShadow
  used_uv : UV
deriving DecidableEq, Repr

/-- `Tee::new_with_uv` (`src/tee.rs`), starting from the already
decoded pixel buffer (decoding is an external codec capability):
validate the dimensions, then extract body, feet, hand (each with its
shadow) and the six eyes, in source order. -/
def Tee.new_with_uv (img : Image) (uv : UV) : Res Tee :=
  (validate_image_dimensions (img.width, img.height) uv.container).bind fun _ =>
  (extract_with_shadow img uv.body uv.body_shadow).bind fun body =>
  (extract_with_shadow img uv.feet uv.feet_shadow).bind fun feet =>
  (extract_with_shadow img uv.hand uv.hand_shadow).bind fun hand =>
  (extract_all_eyes img uv.eyes).bind fun eye =>
  .ok { body, feet, eye, hand, used_uv := uv }

/-- `Tee::get_eye` (`src/tee.rs`): index the eye array by the variant's
fixed ordinal and match the stored tag against the request; the
source's `unreachable!` arm is modelled as `none`. -/
def Tee.get_eye (tee : Tee) (t : EyeType) : Option Image :=
  match t, tee.eye.get t.index with
  | .Normal, .Normal img => some img
  | .Angry, .Angry img => some img
  | .Pain, .Pain img => some img
  | .Happy, .Happy img => some img
  | .Empty, .Empty img => some img
  | .Surprise, .Surprise img => some img
  | _, _ => none

/-- `BODY_SIZE` (`src/tee/uv.rs`). -/
def BODY_SIZE : Nat × Nat := (96, 96)

/-- `FEET_SIZE` (`src/tee/uv.rs`). -/
def FEET_SIZE : Nat × Nat := (64, 32)

/-- `EYE_SIZE` (`src/tee/uv.rs`). -/
def EYE_SIZE : Nat × Nat := (32, 32)

/-- `HAND_SIZE` (`src/tee/uv.rs`). -/
def HAND_SIZE : Nat × Nat := (32, 32)

/-- `TEE_UV_LAYOUT` (`src/tee/uv.rs`), with the same derived constants
as the source block. -/
def TEE_UV_LAYOUT : UV :=
  let BODY_END_X : Nat := BODY_SIZE.1
  let HANDS_AND_FEET_START_X : Nat := BODY_SIZE.1 * 2
  let HAND_SHADOW_START_X : Nat := HANDS_AND_FEET_START_X + HAND_SIZE.1
  let FEET_START_Y : Nat := HAND_SIZE.2
  let FEET_SHADOW_START_Y : Nat := FEET_START_Y + FEET_SIZE.2
  let EYES_START_X : Nat := 64
  let EYES_START_Y : Nat := BODY_SIZE.2
  { container := (256, 128)
    body := ⟨0, 0, BODY_SIZE.1, BODY_SIZE.2⟩
    body_shadow := ⟨BODY_END_X, 0, BODY_SIZE.1, BODY_SIZE.2⟩
    feet := ⟨HANDS_AND_FEET_START_X, FEET_START_Y, FEET_SIZE.1, FEET_SIZE.2⟩
    feet_shadow := ⟨HANDS_AND_FEET_START_X, FEET_SHADOW_START_Y, FEET_SIZE.1, FEET_SIZE.2⟩
    hand := ⟨HANDS_AND_FEET_START_X, 0, HAND_SIZE.1, HAND_SIZE.2⟩
    hand_shadow := ⟨HAND_SHADOW_START_X, 0, HAND_SIZE.1, HAND_SIZE.2⟩
    eyes :=
      ⟨⟨EYES_START_X, EYES_START_Y, EYE_SIZE.1, EYE_SIZE.2⟩,
       ⟨EYES_START_X + EYE_SIZE.1, EYES_START_Y, EYE_SIZE.1, EYE_SIZE.2⟩,
       ⟨EYES_START_X + EYE_SIZE.1 * 2, EYES_START_Y, EYE_SIZE.1, EYE_SIZE.2⟩,
       ⟨EYES_START_X + EYE_SIZE.1 * 3, EYES_START_Y, EYE_SIZE.1, EYE_SIZE.2⟩,
       ⟨EYES_START_X + EYE_SIZE.1 * 4, EYES_START_Y, EYE_SIZE.1, EYE_SIZE.2⟩,
       ⟨EYES_START_X + EYE_SIZE.1 * 5, EYES_START_Y, EYE_SIZE.1, EYE_SIZE.2⟩⟩ }

/-- `Tee::new` (`src/tee.rs`): parse with the default layout. -/
def Tee.new (img : Image) : Res Tee :=
  Tee.new_with_uv img TEE_UV_LAYOUT

/-! ## Color transform (`src/tee/hsl.rs`), over exact rationals -/

/-- Truncation toward zero, the rounding of Rust float-to-int casts and
of `f32 %`. -/
def truncQ (q : ℚ) : ℤ :=
  if 0 ≤ q then ⌊q⌋ else ⌈q⌉

/-- Rust `%` on floats: remainder with the sign of the dividend. -/
def rustRem (a b : ℚ) : ℚ :=
  a - b * (truncQ (a / b) : ℚ)

/-- `expr as u8` on an `f32` value: saturate into `[0, 255]`, then
truncate toward zero. -/
def rustAsU8 (q : ℚ) : Nat :=
  (truncQ (min (max q 0) 255)).toNat

/-- `expr as u32` on an `f32` value: saturate into `[0, 2^32 - 1]`,
then truncate toward zero. -/
def rustAsU32 (q : ℚ) : Nat :=
  min (truncQ q).toNat (U32 - 1)

/-- `DARKEST_LGT` (`src/tee/hsl.rs`). -/
def DARKEST_LGT : ℚ := 1 / 2

/-- `ddnet_color_to_hsl` (`src/tee/hsl.rs`): unpack the three bytes at
bit positions 16, 8, 0 and remap the lightness into the upper half of
its range. -/
def ddnet_color_to_hsl (color : Nat) : ℚ × ℚ × ℚ :=
  let h_raw : ℚ := ((color >>> 16) &&& 0xFF : Nat)
  let s_raw : ℚ := ((color >>> 8) &&& 0xFF : Nat)
  let l_raw : ℚ := (color &&& 0xFF : Nat)
  let h := h_raw / 255
  let s := s_raw / 255
  let l_compressed := l_raw / 255
  let l := DARKEST_LGT + l_compressed * (1 - DARKEST_LGT)
  (h, s, l)

/-- `hsl_to_rgb` (`src/tee/hsl.rs`).  The source matches on
`h1.floor() as i32`; the arms `5 | 6` and the catch-all `_` both
produce `(c, 0.0, x)`, so the saturation of the `as i32` cast cannot
change the selected arm and the match is embedded as an if-chain on
`⌊h1⌋`. -/
def hsl_to_rgb : ℚ × ℚ × ℚ → ℚ × ℚ × ℚ
  | (h, s, l) =>
    let h1 := h * 6
    let c := (1 - |2 * l - 1|) * s
    let x := c * (1 - |rustRem h1 2 - 1|)
    let rgb : ℚ × ℚ × ℚ :=
      if ⌊h1⌋ = 0 then (c, x, 0)
      else if ⌊h1⌋ = 1 then (x, c, 0)
      else if ⌊h1⌋ = 2 then (0, c, x)
      else if ⌊h1⌋ = 3 then (0, x, c)
      else if ⌊h1⌋ = 4 then (x, 0, c)
      else (c, 0, x)
    let m := l - c / 2
    (rgb.1 + m, rgb.2.1 + m, rgb.2.2 + m)

/-- The per-pixel body of `img_hsl_transform` (`src/tee/hsl.rs`): each
color channel is scaled to `[0,1]`, multiplied by its factor, scaled
back, clamped and truncated; alpha is not written. -/
def hslTransformPixel (rgb : ℚ × ℚ × ℚ) (p : Pixel) : Pixel :=
  { r := rustAsU8 ((p.r : ℚ) / 255 * rgb.1 * 255)
    g := rustAsU8 ((p.g : ℚ) / 255 * rgb.2.1 * 255)
    b := rustAsU8 ((p.b : ℚ) / 255 * rgb.2.2 * 255)
    a := p.a }

/-- `img_hsl_transform` (`src/tee/hsl.rs`): compute the RGB factors
once, then rewrite every pixel in place.  The source iterates with a
rayon parallel bridge; the embedding is the pointwise map, and the
order-independence of the per-pixel updates is proved separately. -/
def img_hsl_transform (img : Image) (hsl : ℚ × ℚ × ℚ) : Image :=
  let rgb := hsl_to_rgb hsl
  { img with pixels := img.pixels.map (hslTransformPixel rgb) }

/-- One arm of the `match` inside `Tee::apply_hsl_to_parts`
(`src/tee.rs`): transform the sub-buffer selected by `part`. -/
def applyPartStep (hsl : ℚ × ℚ × ℚ) (t : Tee) (part : TeePart) : Tee :=
  match part with
  | .Body => { t with body := { t.body with value := img_hsl_transform t.body.value hsl } }
  | .BodyShadow => { t with body := { t.body with shadow := img_hsl_transform t.body.shadow hsl } }
  | .Feet => { t with feet := { t.feet with value := img_hsl_transform t.feet.value hsl } }
  | .FeetShadow => { t with feet := { t.feet with shadow := img_hsl_transform t.feet.shadow hsl } }
  | .Hand => { t with hand := { t.hand with value := img_hsl_transform t.hand.value hsl } }
  | .HandShadow => { t with hand := { t.hand with shadow := img_hsl_transform t.hand.shadow hsl } }

/-- `Tee::apply_hsl_to_parts` (`src/tee.rs`): for each listed part, in
list order, transform the matching sub-buffer in place. -/
def Tee.apply_hsl_to_parts (tee : Tee) (hsl : ℚ × ℚ × ℚ) (parts : List TeePart) : Tee :=
  parts.foldl (applyPartStep hsl) tee

/-- The sub-buffer of a `Tee` selected by a `TeePart` name. -/
def Tee.getPart (tee : Tee) : TeePart → Image
  | .Body => tee.body.value
  | .BodyShadow => tee.body.shadow
  | .Feet => tee.feet.value
  | .FeetShadow => tee.feet.shadow
  | .Hand => tee.hand.value
  | .HandShadow => tee.hand.shadow

/-! ## Destination layout and compositor (`src/tee/skin.rs`, `src/tee.rs`) -/

/-- `skin::SkinPS` — a placement slot: an `(i64, i64)` position and an
`f32` scale factor. -/
structure SkinPS where
  pos : Int × Int
  factor : ℚ
deriving DecidableEq, Repr

/-- `skin::Skin` — the destination layout (`src/tee/skin.rs`). -/
structure Skin where
  body : SkinPS
  feet : SkinPS
  feet_back : SkinPS
  first_eyes : SkinPS
  second_eyes : SkinPS
  container : Nat × Nat
deriving DecidableEq, Repr

/-- `TEE_SKIN_LAYOUT` (`src/tee/skin.rs`). -/
def TEE_SKIN_LAYOUT : Skin :=
  { body := ⟨(16, 0), 0.66⟩
    feet_back := ⟨(8, 30), 1⟩
    feet := ⟨(24, 30), 1⟩
    first_eyes := ⟨(39, 18), 0.8⟩
    second_eyes := ⟨(47, 18), 0.8⟩
    container := (96, 64) }

/-- `skin::scale` (`src/tee/skin.rs`): multiply each component by the
factor as `f32` and cast back with `as u32`. -/
def scale (size : Nat × Nat) (factor : ℚ) : Nat × Nat :=
  (rustAsU32 ((size.1 : ℚ) * factor), rustAsU32 ((size.2 : ℚ) * factor))

/-- `imageops::flip_horizontal`: output pixel `(x, y)` is input pixel
`(width - 1 - x, y)`. -/
def flip_horizontal (img : Image) : Image :=
  { img with
    pixels := (List.range (img.height * img.width)).map
      (fun i => img.getPixel (img.width - 1 - i % img.width) (i / img.width)) }

/-- `RgbaImage::new` — a zero-initialised, fully transparent canvas. -/
def blankCanvas (size : Nat × Nat) : Image :=
  { width := size.1
    height := size.2
    pixels := List.replicate (size.2 * size.1) Pixel.transparent }

/-- One draw command issued by `Tee::compose_layers`: the source layer
image, the destination slot, and the UV rectangle whose dimensions feed
the resize target. -/
structure Draw where
  layer : Image
  slot : SkinPS
  uv : UVPart
deriving DecidableEq, Repr

/-- The closure `compose` defined inside `Tee::compose`
(`src/tee.rs`): resize the layer to the scaled UV size and overlay it
on the canvas at the slot position.  `resize` (triangle-filtered
resampling) and `overlay` (alpha blending) live in the external image
crate and are taken as parameters. -/
def composeStep (rs : Image → Nat → Nat → Image) (ov : Image → Image → Int → Int → Image)
    (canvas : Image) (d : Draw) : Image :=
  let wh := scale (d.uv.w, d.uv.h) d.slot.factor
  ov canvas (rs d.layer wh.1 wh.2) d.slot.pos.1 d.slot.pos.2

/-- The sequence of draw commands issued by `Tee::compose_layers`
(`src/tee.rs`), in source order; `none` when `get_eye` hits its
`unreachable!` arm.  Both eye draws pass `self.used_uv.eyes[0]` as the
UV rectangle. -/
def Tee.compose_layers (tee : Tee) (skin : Skin) (eye_type : EyeType) : Option (List Draw) :=
  (tee.get_eye eye_type).map fun eye =>
    [⟨tee.body.shadow, skin.body, tee.used_uv.body_shadow⟩,
     ⟨tee.feet.shadow, skin.feet_back, tee.used_uv.feet_shadow⟩,
     ⟨tee.feet.shadow, skin.feet, tee.used_uv.feet_shadow⟩,
     ⟨tee.feet.value, skin.feet_back, tee.used_uv.feet⟩,
     ⟨tee.body.value, skin.body, tee.used_uv.body⟩,
     ⟨eye, skin.first_eyes, tee.used_uv.eyes.get 0⟩,
     ⟨flip_horizontal eye, skin.second_eyes, tee.used_uv.eyes.get 0⟩,
     ⟨tee.feet.value, skin.feet, tee.used_uv.feet⟩]

/-- `Tee::compose` (`src/tee.rs`) up to the external encode step: a
fresh canvas sized to the layout container, then the eight sequential
draw calls of `Tee::compose_layers`, written as the source performs
them.  The external resize and overlay operations are parameters. -/
def Tee.compose (tee : Tee) (rs : Image → Nat → Nat → Image)
    (ov : Image → Image → Int → Int → Image) (skin : Skin) (eye_type : EyeType) :
    Option Image :=
  match tee.get_eye eye_type with
  | none => none
  | some eye =>
    let canvas := blankCanvas skin.container
    let canvas := composeStep rs ov canvas ⟨tee.body.shadow, skin.body, tee.used_uv.body_shadow⟩
    let canvas := composeStep rs ov canvas ⟨tee.feet.shadow, skin.feet_back, tee.used_uv.feet_shadow⟩
    let canvas := composeStep rs ov canvas ⟨tee.feet.shadow, skin.feet, tee.used_uv.feet_shadow⟩
    let canvas := composeStep rs ov canvas ⟨tee.feet.value, skin.feet_back, tee.used_uv.feet⟩
    let canvas := composeStep rs ov canvas ⟨tee.body.value, skin.body, tee.used_uv.body⟩
    let canvas := composeStep rs ov canvas ⟨eye, skin.first_eyes, tee.used_uv.eyes.get 0⟩
    let canvas := composeStep rs ov canvas
      ⟨flip_horizontal eye, skin.second_eyes, tee.used_uv.eyes.get 0⟩
    let canvas := composeStep rs ov canvas ⟨tee.feet.value, skin.feet, tee.used_uv.feet⟩
    some canvas

/-! ## Spec-side definitions, for refinement comparison -/

/-- The HSL-to-RGB conversion as the spec states it (4.3): chroma
`c = (1 - |2l - 1|) * s`, secondary `x = c * (1 - |(h1 mod 2) - 1|)`,
six 60-degree sectors selected by `floor(h1)` with every sector at or
beyond 5 (the sector-6 wraparound included) mapped like sector 5, and
offset `m = l - c/2` added to every channel. -/
def specHslToRgb : ℚ × ℚ × ℚ → ℚ × ℚ × ℚ
  | (h, s, l) =>
    let h1 := h * 6
    let c := (1 - |2 * l - 1|) * s
    let x := c * (1 - |rustRem h1 2 - 1|)
    let m := l - c / 2
    let rgb : ℚ × ℚ × ℚ :=
      if ⌊h1⌋ = 0 then (c, x, 0)
      else if ⌊h1⌋ = 1 then (x, c, 0)
      else if ⌊h1⌋ = 2 then (0, c, x)
      else if ⌊h1⌋ = 3 then (0, x, c)
      else if ⌊h1⌋ = 4 then (x, 0, c)
      else (c, 0, x)
    (rgb.1 + m, rgb.2.1 + m, rgb.2.2 + m)

/-- The per-channel recolor formula as the claim states it:
`clamp(original_channel / 255 * factor, 0, 1) * 255` truncated to an
integer. -/
def specRecolorChannel (factor : ℚ) (chan : Nat) : Nat :=
  (truncQ (min (max ((chan : ℚ) / 255 * factor) 0) 1 * 255)).toNat

/-- Sequential in-place per-pixel update in an arbitrary visiting
order: for each listed index, replace that pixel by `f` of it.  Used to
state that the rayon-parallel per-pixel loop of `img_hsl_transform` is
order-independent. -/
def applyInOrder (f : Pixel → Pixel) (ord : List Nat) (ps : List Pixel) : List Pixel :=
  ord.foldl (fun acc i => acc.set i (f (acc.getD i Pixel.transparent))) ps

/-! ## Concrete values used by witnesses and counterexamples -/

/-- A 1 by 1 rectangle at the origin. -/
def part1 : UVPart := ⟨0, 0, 1, 1⟩

/-- The layout whose parts are all `part1` on a 1 by 1 container. -/
def uvUnit : UV :=
  ⟨part1, part1, part1, part1, part1, part1,
   ⟨part1, part1, part1, part1, part1, part1⟩, (1, 1)⟩

/-- A 1 by 1 transparent image. -/
def img1 : Image := ⟨1, 1, [Pixel.transparent]⟩

/-- The `Tee` that parsing a blank 1 by 1 sheet with `uvUnit`
produces. -/
def teeUnit : Tee :=
  ⟨⟨img1, img1⟩, ⟨img1, img1⟩,
   ⟨.Normal img1, .Angry img1, .Pain img1, .Happy img1, .Empty img1, .Surprise img1⟩,
   ⟨img1, img1⟩, uvUnit⟩

/-- A 2 by 2 transparent image. -/
def img2x2 : Image := ⟨2, 2, List.replicate 4 Pixel.transparent⟩

/-- A layout on a 4 by 4 container whose Normal eye region is 2 by 2
while every other region (the Happy eye region included) is 1 by 1. -/
def uvC8 : UV :=
  ⟨part1, part1, part1, part1, part1, part1,
   ⟨⟨0, 0, 2, 2⟩, part1, part1, part1, part1, part1⟩, (4, 4)⟩

/-- The `Tee` that parsing a blank 4 by 4 sheet with `uvC8`
produces. -/
def teeC8 : Tee :=
  ⟨⟨img1, img1⟩, ⟨img1, img1⟩,
   ⟨.Normal img2x2, .Angry img1, .Pain img1, .Happy img1, .Empty img1, .Surprise img1⟩,
   ⟨img1, img1⟩, uvC8⟩

/-- A destination layout with unit scale factors. -/
def skinC8 : Skin :=
  ⟨⟨(0, 0), 1⟩, ⟨(0, 0), 1⟩, ⟨(0, 0), 1⟩, ⟨(0, 0), 1⟩, ⟨(0, 0), 1⟩, (8, 8)⟩

/-- A placeholder draw command for out-of-range list lookups. -/
def dDummy : Draw := ⟨img1, ⟨(0, 0), 0⟩, part1⟩

/-- A 2-pixel test image with distinct channel values. -/
def imgW : Image := ⟨2, 1, [⟨10, 20, 30, 40⟩, ⟨255, 0, 128, 7⟩]⟩

/-- A rectangle whose `x + w` overflows `u32`. -/
def overflowPart : UVPart := ⟨U32 - 1, 0, 2, 1⟩

/-! ## General lemmas -/

theorem Res.bind_eq_ok {α β : Type} (x : Res α) (f : α → Res β) (b : β) :
    x.bind f = .ok b ↔ ∃ a, x = .ok a ∧ f a = .ok b := by
  cases x <;> simp [Res.bind]

theorem row_major_lt {x y w h : Nat} (hx : x < w) (hy : y < h) :
    y * w + x < h * w :=
  calc y * w + x < y * w + w := by omega
    _ = (y + 1) * w := by ring
    _ ≤ h * w := Nat.mul_le_mul_right w hy

theorem range_map_getD {n i : Nat} (g : Nat → Pixel) (h : i < n) :
    ((List.range n).map g).getD i Pixel.transparent = g i := by
  rw [List.getD_eq_getElem _ _ (by simp [h])]
  simp

theorem row_major_mod {x w : Nat} (y : Nat) (hx : x < w) : (y * w + x) % w = x := by
  rw [Nat.mul_comm]
  exact (Nat.mul_add_mod w y x).trans (Nat.mod_eq_of_lt hx)

theorem row_major_div {x w : Nat} (y : Nat) (hx : x < w) : (y * w + x) / w = y := by
  have hw : 0 < w := by omega
  rw [Nat.add_comm, Nat.add_mul_div_right _ _ hw, Nat.div_eq_of_lt hx, Nat.zero_add]

/-! ## C10 -/

/-- C10: the built-in constant layouts equal the spec's values field for
field: `TEE_UV_LAYOUT` has container 256 by 128 with body 96 by 96 at
the origin, body shadow 96 by 96 at (96, 0), 64 by 32 feet and
feet-shadow regions, 32 by 32 hand and hand-shadow regions, and six
32 by 32 eye regions in a row at y 96 starting at x 64;
`TEE_SKIN_LAYOUT` has container 96 by 64 with body at (16, 0) scaled
0.66, feet back at (8, 30), feet at (24, 30), and the eyes at (39, 18)
and (47, 18), each scaled 0.8. -/
theorem builtin_layouts_match_spec :
    TEE_UV_LAYOUT.container = (256, 128) ∧
    TEE_UV_LAYOUT.body = ⟨0, 0, 96, 96⟩ ∧
    TEE_UV_LAYOUT.body_shadow = ⟨96, 0, 96, 96⟩ ∧
    (TEE_UV_LAYOUT.feet.w, TEE_UV_LAYOUT.feet.h) = (64, 32) ∧
    (TEE_UV_LAYOUT.feet_shadow.w, TEE_UV_LAYOUT.feet_shadow.h) = (64, 32) ∧
    (TEE_UV_LAYOUT.hand.w, TEE_UV_LAYOUT.hand.h) = (32, 32) ∧
    (TEE_UV_LAYOUT.hand_shadow.w, TEE_UV_LAYOUT.hand_shadow.h) = (32, 32) ∧
    (∀ i : Fin 6, TEE_UV_LAYOUT.eyes.get i = ⟨64 + 32 * i.val, 96, 32, 32⟩) ∧
    TEE_SKIN_LAYOUT.container = (96, 64) ∧
    TEE_SKIN_LAYOUT.body = ⟨(16, 0), 0.66⟩ ∧
    TEE_SKIN_LAYOUT.feet_back.pos = (8, 30) ∧
    TEE_SKIN_LAYOUT.feet.pos = (24, 30) ∧
    TEE_SKIN_LAYOUT.first_eyes = ⟨(39, 18), 0.8⟩ ∧
    TEE_SKIN_LAYOUT.second_eyes = ⟨(47, 18), 0.8⟩ :=
  ⟨rfl, by decide, by decide, by decide, by decide, by decide, by decide, by decide,
   rfl, rfl, rfl, rfl, rfl, rfl⟩

/-! ## C6 -/

/-- C6: for every u32 color, `ddnet_color_to_hsl` returns
`h = ((color >> 16) & 0xFF) / 255`, `s = ((color >> 8) & 0xFF) / 255`
and `l = 0.5 + ((color & 0xFF) / 255) * 0.5`; in particular the
returned lightness always lies in `[0.5, 1]`. -/
theorem ddnet_color_to_hsl_spec (color : Nat) :
    ddnet_color_to_hsl color =
      ((((color >>> 16) &&& 0xFF : Nat) : ℚ) / 255,
       (((color >>> 8) &&& 0xFF : Nat) : ℚ) / 255,
       1 / 2 + (((color &&& 0xFF : Nat) : ℚ) / 255) * (1 / 2)) ∧
    1 / 2 ≤ (ddnet_color_to_hsl color).2.2 ∧ (ddnet_color_to_hsl color).2.2 ≤ 1 := by
  have hle : ((color &&& 0xFF : Nat) : ℚ) ≤ 255 := by
    exact_mod_cast (Nat.and_le_right : color &&& 0xFF ≤ 0xFF)
  have hge : (0 : ℚ) ≤ ((color &&& 0xFF : Nat) : ℚ) := by positivity
  have heq : ddnet_color_to_hsl color =
      ((((color >>> 16) &&& 0xFF : Nat) : ℚ) / 255,
       (((color >>> 8) &&& 0xFF : Nat) : ℚ) / 255,
       1 / 2 + (((color &&& 0xFF : Nat) : ℚ) / 255) * (1 / 2)) := by
    norm_num [ddnet_color_to_hsl, DARKEST_LGT]
  refine ⟨heq, ?_, ?_⟩
  · rw [heq]
    show (1 : ℚ) / 2 ≤ 1 / 2 + (((color &&& 0xFF : Nat) : ℚ) / 255) * (1 / 2)
    linarith
  · rw [heq]
    show 1 / 2 + (((color &&& 0xFF : Nat) : ℚ) / 255) * (1 / 2) ≤ 1
    linarith

/-! ## C2 -/

/-- C2: for every UV layout and every decoded image whose dimensions
differ from the layout container, `Tee::new_with_uv` fails with
`InvalidDimensions` carrying expected equal to the container and found
equal to the image's actual dimensions, before any region extraction —
no constraint on the region rectangles is required. -/
theorem new_with_uv_invalid_dimensions (img : Image) (uv : UV)
    (h : (img.width, img.height) ≠ uv.container) :
    Tee.new_with_uv img uv =
      .err (.InvalidDimensions uv.container (img.width, img.height)) := by
  unfold Tee.new_with_uv validate_image_dimensions
  rw [if_pos h]
  rfl

/-- Witness for C2 at a blank 2 by 1 image against the 1 by 1
container of `uvUnit`. -/
theorem new_with_uv_invalid_dimensions_witness :
    ((blankCanvas (2, 1)).width, (blankCanvas (2, 1)).height) ≠ uvUnit.container ∧
    Tee.new_with_uv (blankCanvas (2, 1)) uvUnit =
      .err (.InvalidDimensions (1, 1) (2, 1)) :=
  ⟨by decide, new_with_uv_invalid_dimensions (blankCanvas (2, 1)) uvUnit (by decide)⟩

/-! ## C1 -/

/-- C1, failing input: the claim states that `extract_part` fails with
`OutOfBounds` whenever `x + w > width` and never panics, but on a
rectangle whose `x + w` overflows `u32` the release-mode guard wraps
modulo `2^32` and passes, after which the image crate's view assertion
panics: the requested rectangle exceeds the 256 by 128 buffer, the
wrapped guard value does not, and the result is a panic rather than an
`OutOfBounds` error. -/
theorem extract_part_overflow_panics :
    extract_part (blankCanvas (256, 128)) overflowPart = Res.panic ∧
    overflowPart.x + overflowPart.w > (blankCanvas (256, 128)).width ∧
    (overflowPart.x + overflowPart.w) % U32 ≤ (blankCanvas (256, 128)).width :=
  ⟨by decide, by decide, by decide⟩

/-! ## C4 -/

theorem applyInOrder_length (f : Pixel → Pixel) (ord : List Nat) (ps : List Pixel) :
    (applyInOrder f ord ps).length = ps.length := by
  induction ord generalizing ps with
  | nil => rfl
  | cons i rest ih =>
    show (applyInOrder f rest (ps.set i _)).length = _
    rw [ih, List.length_set]

theorem applyInOrder_getD (f : Pixel → Pixel) (ord : List Nat) (ps : List Pixel)
    (hnd : ord.Nodup) (j : Nat) (hj : j < ps.length) :
    (applyInOrder f ord ps).getD j Pixel.transparent =
      if j ∈ ord then f (ps.getD j Pixel.transparent)
      else ps.getD j Pixel.transparent := by
  induction ord generalizing ps with
  | nil => simp [applyInOrder]
  | cons i rest ih =>
    obtain ⟨hni, hndr⟩ := List.nodup_cons.mp hnd
    have step : applyInOrder f (i :: rest) ps =
        applyInOrder f rest (ps.set i (f (ps.getD i Pixel.transparent))) := rfl
    rw [step, ih _ hndr (by rw [List.length_set]; exact hj)]
    by_cases hji : j = i
    · subst hji
      rw [if_neg (fun hm => hni hm), if_pos (List.mem_cons_self j rest)]
      rw [List.getD_eq_getElem?_getD, List.getElem?_set_eq_of_lt _ hj, Option.getD_some]
    · have hset : (ps.set i (f (ps.getD i Pixel.transparent))).getD j Pixel.transparent =
          ps.getD j Pixel.transparent := by
        rw [List.getD_eq_getElem?_getD, List.getElem?_set_ne (fun he => hji he.symm),
          ← List.getD_eq_getElem?_getD]
      rw [hset]
      simp [List.mem_cons, hji]

theorem applyInOrder_perm (f : Pixel → Pixel) (ord : List Nat) (ps : List Pixel)
    (h : ord.Perm (List.range ps.length)) :
    applyInOrder f ord ps = ps.map f := by
  have hnd : ord.Nodup := h.nodup_iff.mpr (List.nodup_range _)
  apply List.ext_getElem
  · rw [applyInOrder_length, List.length_map]
  · intro j h1 h2
    have hj : j < ps.length := by rwa [applyInOrder_length] at h1
    rw [List.getElem_map, ← List.getD_eq_getElem (applyInOrder f ord ps) Pixel.transparent h1,
      applyInOrder_getD f ord ps hnd j hj,
      if_pos (h.mem_iff.mpr (List.mem_range.mpr hj)), List.getD_eq_getElem _ _ hj]

theorem rustAsU8_eq_spec (factor : ℚ) (chan : Nat) :
    rustAsU8 ((chan : ℚ) / 255 * factor * 255) = specRecolorChannel factor chan := by
  unfold rustAsU8 specRecolorChannel
  congr 2
  rw [min_mul_of_nonneg _ _ (by norm_num : (0 : ℚ) ≤ 255),
    max_mul_of_nonneg _ _ (by norm_num : (0 : ℚ) ≤ 255)]
  norm_num

/-- C4: for every RGBA buffer and every HSL triple with components in
the unit interval, `img_hsl_transform` keeps the dimensions, rewrites
the pixels pointwise (so the result is independent of the order in
which the parallel loop visits pixels), leaves every alpha channel
unchanged, and maps each color channel to
`clamp(channel / 255 * factor, 0, 1) * 255` truncated, where the
factors are computed once by the HSL-to-RGB conversion stated in the
spec. -/
theorem img_hsl_transform_spec (img : Image) (h s l : ℚ)
    (_hh0 : 0 ≤ h) (_hh1 : h ≤ 1) (_hs0 : 0 ≤ s) (_hs1 : s ≤ 1) (_hl0 : 0 ≤ l) (_hl1 : l ≤ 1) :
    (img_hsl_transform img (h, s, l)).width = img.width ∧
    (img_hsl_transform img (h, s, l)).height = img.height ∧
    (img_hsl_transform img (h, s, l)).pixels =
      img.pixels.map (hslTransformPixel (hsl_to_rgb (h, s, l))) ∧
    (∀ p : Pixel,
      (hslTransformPixel (hsl_to_rgb (h, s, l)) p).a = p.a ∧
      (hslTransformPixel (hsl_to_rgb (h, s, l)) p).r =
        specRecolorChannel (hsl_to_rgb (h, s, l)).1 p.r ∧
      (hslTransformPixel (hsl_to_rgb (h, s, l)) p).g =
        specRecolorChannel (hsl_to_rgb (h, s, l)).2.1 p.g ∧
      (hslTransformPixel (hsl_to_rgb (h, s, l)) p).b =
        specRecolorChannel (hsl_to_rgb (h, s, l)).2.2 p.b) ∧
    hsl_to_rgb (h, s, l) = specHslToRgb (h, s, l) ∧
    (∀ ord : List Nat, ord.Perm (List.range img.pixels.length) →
      applyInOrder (hslTransformPixel (hsl_to_rgb (h, s, l))) ord img.pixels =
        img.pixels.map (hslTransformPixel (hsl_to_rgb (h, s, l)))) :=
  ⟨rfl, rfl, rfl,
   fun _ => ⟨rfl, rustAsU8_eq_spec _ _, rustAsU8_eq_spec _ _, rustAsU8_eq_spec _ _⟩,
   rfl, fun ord hp => applyInOrder_perm _ ord _ hp⟩

/-- Witness for C4 at a concrete 2-pixel buffer, the HSL triple
(0, 0, 1) and the reversed visiting order. -/
theorem img_hsl_transform_spec_witness :
    ((0 : ℚ) ≤ 1 ∧ List.Perm [1, 0] (List.range imgW.pixels.length)) ∧
    applyInOrder (hslTransformPixel (hsl_to_rgb (0, 0, 1))) [1, 0] imgW.pixels =
      imgW.pixels.map (hslTransformPixel (hsl_to_rgb (0, 0, 1))) ∧
    (hslTransformPixel (hsl_to_rgb (0, 0, 1)) ⟨10, 20, 30, 40⟩).a = 40 :=
  ⟨⟨by norm_num, by decide⟩,
   (img_hsl_transform_spec imgW 0 0 1 (le_refl 0) (by norm_num) (le_refl 0) (by norm_num)
       (by norm_num) (le_refl 1)).2.2.2.2.2 [1, 0] (by decide),
   ((img_hsl_transform_spec imgW 0 0 1 (le_refl 0) (by norm_num) (le_refl 0) (by norm_num)
       (by norm_num) (le_refl 1)).2.2.2.1 ⟨10, 20, 30, 40⟩).1⟩

/-! ## C5 -/

/-- C5: for every Tee produced by construction and every eye state, the
eye array element at the state's fixed ordinal carries that same
variant's tag, `get_eye` returns exactly the buffer extracted from the
corresponding layout eye region, and the mismatch arm (`unreachable!`,
modelled as `none`) is never reached. -/
theorem get_eye_total (img : Image) (uv : UV) (tee : Tee)
    (h : Tee.new_with_uv img uv = .ok tee) (t : EyeType) :
    (tee.eye.get t.index).tag = t ∧
    tee.get_eye t = some ((tee.eye.get t.index).img) ∧
    extract_part img (uv.eyes.get t.index) = .ok ((tee.eye.get t.index).img) := by
  simp only [Tee.new_with_uv, extract_all_eyes, Res.bind_eq_ok, Res.ok.injEq] at h
  obtain ⟨u, -, body, -, feet, -, hand, -, eye6,
    ⟨i0, h0, i1, h1, i2, h2, i3, h3, i4, h4, i5, h5, heq⟩, htee⟩ := h
  subst heq
  subst htee
  cases t <;>
    simp only [EyeType.index, Tee.get_eye, Eye6.get, EyeParts.get, EyeTypeData.tag,
      EyeTypeData.img] <;>
    exact ⟨trivial, trivial, by assumption⟩

/-- Witness for C5: parsing a blank 1 by 1 sheet with `uvUnit` succeeds
and `get_eye` on the Happy state returns the stored Happy buffer. -/
theorem get_eye_total_witness :
    Tee.new_with_uv (blankCanvas (1, 1)) uvUnit = Res.ok teeUnit ∧
    teeUnit.get_eye EyeType.Happy = some ((teeUnit.eye.get EyeType.Happy.index).img) :=
  ⟨by decide,
   (get_eye_total (blankCanvas (1, 1)) uvUnit teeUnit (by decide) EyeType.Happy).2.1⟩

/-- For rectangles whose sums do not overflow `u32`, `extract_part`
behaves exactly as the spec demands: success iff the rectangle fits,
with the copied sub-region and exact dimensions on success and an
`OutOfBounds` error carrying the rectangle and the buffer dimensions
on failure. -/
theorem extract_part_no_overflow (img : Image) (part : UVPart)
    (hx : part.x + part.w < U32) (hy : part.y + part.h < U32) :
    ((part.x + part.w ≤ img.width ∧ part.y + part.h ≤ img.height) →
      ∃ out, extract_part img part = .ok out ∧
        out.width = part.w ∧ out.height = part.h ∧
        ∀ i j, i < part.w → j < part.h →
          out.getPixel i j = img.getPixel (part.x + i) (part.y + j)) ∧
    (¬ (part.x + part.w ≤ img.width ∧ part.y + part.h ≤ img.height) →
      extract_part img part = .err (.OutOfBounds part img.width img.height)) := by
  unfold extract_part
  rw [Nat.mod_eq_of_lt hx, Nat.mod_eq_of_lt hy]
  constructor
  · rintro ⟨h1, h2⟩
    rw [if_neg (by omega), if_pos ⟨h1, h2⟩]
    refine ⟨_, rfl, rfl, rfl, ?_⟩
    intro i j hi hj
    simp only [Image.getPixel]
    rw [range_map_getD _ (row_major_lt hi hj), row_major_mod _ hi, row_major_div _ hi]
  · intro hcon
    rw [if_pos (by omega)]

/-! ## C9 -/

theorem applyPartStep_getPart (hsl : ℚ × ℚ × ℚ) (t : Tee) (q0 q : TeePart) :
    (applyPartStep hsl t q0).getPart q =
      if q = q0 then img_hsl_transform (t.getPart q) hsl else t.getPart q := by
  cases q0 <;> cases q <;> simp [applyPartStep, Tee.getPart]

theorem applyPartStep_eye (hsl : ℚ × ℚ × ℚ) (t : Tee) (q0 : TeePart) :
    (applyPartStep hsl t q0).eye = t.eye := by
  cases q0 <;> rfl

theorem applyPartStep_used_uv (hsl : ℚ × ℚ × ℚ) (t : Tee) (q0 : TeePart) :
    (applyPartStep hsl t q0).used_uv = t.used_uv := by
  cases q0 <;> rfl

theorem apply_hsl_characterization (hsl : ℚ × ℚ × ℚ) (parts : List TeePart) (t : Tee)
    (hnd : parts.Nodup) :
    (∀ q, (t.apply_hsl_to_parts hsl parts).getPart q =
      if q ∈ parts then img_hsl_transform (t.getPart q) hsl else t.getPart q) ∧
    (t.apply_hsl_to_parts hsl parts).eye = t.eye ∧
    (t.apply_hsl_to_parts hsl parts).used_uv = t.used_uv := by
  induction parts generalizing t with
  | nil => exact ⟨fun q => by simp [Tee.apply_hsl_to_parts], rfl, rfl⟩
  | cons p rest ih =>
    obtain ⟨hpn, hndr⟩ := List.nodup_cons.mp hnd
    have step : t.apply_hsl_to_parts hsl (p :: rest) =
        (applyPartStep hsl t p).apply_hsl_to_parts hsl rest := rfl
    obtain ⟨hg, he, hu⟩ := ih (applyPartStep hsl t p) hndr
    refine ⟨fun q => ?_, step ▸ (he.trans (applyPartStep_eye hsl t p)),
      step ▸ (hu.trans (applyPartStep_used_uv hsl t p))⟩
    rw [step, hg q, applyPartStep_getPart]
    by_cases hq : q = p
    · subst hq
      rw [if_neg (fun hm => hpn hm), if_pos rfl, if_pos (List.mem_cons_self q rest)]
    · rw [if_neg hq]
      simp [List.mem_cons, hq]

theorem Tee.ext_parts (t1 t2 : Tee) (hp : ∀ q, t1.getPart q = t2.getPart q)
    (he : t1.eye = t2.eye) (hu : t1.used_uv = t2.used_uv) : t1 = t2 := by
  obtain ⟨⟨b1v, b1s⟩, ⟨f1v, f1s⟩, e1, ⟨g1v, g1s⟩, u1⟩ := t1
  obtain ⟨⟨b2v, b2s⟩, ⟨f2v, f2s⟩, e2, ⟨g2v, g2s⟩, u2⟩ := t2
  simp only [Tee.mk.injEq, WithShadow.mk.injEq]
  exact ⟨⟨hp .Body, hp .BodyShadow⟩, ⟨hp .Feet, hp .FeetShadow⟩, he,
    ⟨hp .Hand, hp .HandShadow⟩, hu⟩

/-- C9: for every character and duplicate-free selection of part names,
`apply_hsl_to_parts` transforms exactly the selected sub-buffers, each
exactly once, leaves the unselected part buffers, the six eye buffers
and the retained source layout unchanged, and the result does not
depend on the order of the selected names. -/
theorem apply_hsl_to_parts_spec (tee : Tee) (hsl : ℚ × ℚ × ℚ) (parts : List TeePart)
    (hnd : parts.Nodup) :
    (∀ q ∈ parts, (tee.apply_hsl_to_parts hsl parts).getPart q =
      img_hsl_transform (tee.getPart q) hsl) ∧
    (∀ q ∉ parts, (tee.apply_hsl_to_parts hsl parts).getPart q = tee.getPart q) ∧
    (tee.apply_hsl_to_parts hsl parts).eye = tee.eye ∧
    (tee.apply_hsl_to_parts hsl parts).used_uv = tee.used_uv ∧
    (∀ parts2 : List TeePart, parts2.Perm parts →
      tee.apply_hsl_to_parts hsl parts2 = tee.apply_hsl_to_parts hsl parts) := by
  obtain ⟨hg, he, hu⟩ := apply_hsl_characterization hsl parts tee hnd
  refine ⟨fun q hq => by rw [hg q, if_pos hq], fun q hq => by rw [hg q, if_neg hq], he, hu,
    fun parts2 hperm => ?_⟩
  obtain ⟨hg2, he2, hu2⟩ :=
    apply_hsl_characterization hsl parts2 tee (hperm.nodup_iff.mpr hnd)
  refine Tee.ext_parts _ _ (fun q => ?_) (he2.trans he.symm) (hu2.trans hu.symm)
  rw [hg q, hg2 q]
  by_cases hq : q ∈ parts
  · rw [if_pos hq, if_pos (hperm.mem_iff.mpr hq)]
  · rw [if_neg hq, if_neg (fun hm => hq (hperm.mem_iff.mp hm))]

/-! ## C3, C7, C8 -/

theorem compose_layers_eq (tee : Tee) (skin : Skin) (et : EyeType) (eye : Image)
    (hget : tee.get_eye et = some eye) :
    tee.compose_layers skin et = some
      [⟨tee.body.shadow, skin.body, tee.used_uv.body_shadow⟩,
       ⟨tee.feet.shadow, skin.feet_back, tee.used_uv.feet_shadow⟩,
       ⟨tee.feet.shadow, skin.feet, tee.used_uv.feet_shadow⟩,
       ⟨tee.feet.value, skin.feet_back, tee.used_uv.feet⟩,
       ⟨tee.body.value, skin.body, tee.used_uv.body⟩,
       ⟨eye, skin.first_eyes, tee.used_uv.eyes.get 0⟩,
       ⟨flip_horizontal eye, skin.second_eyes, tee.used_uv.eyes.get 0⟩,
       ⟨tee.feet.value, skin.feet, tee.used_uv.feet⟩] := by
  rw [Tee.compose_layers, hget, Option.map_some']

theorem flip_horizontal_getPixel (img : Image) (x y : Nat)
    (hx : x < img.width) (hy : y < img.height) :
    (flip_horizontal img).getPixel x y = img.getPixel (img.width - 1 - x) y := by
  show ((List.range (img.height * img.width)).map
      (fun i => img.getPixel (img.width - 1 - i % img.width) (i / img.width))).getD
      (y * img.width + x) Pixel.transparent = img.getPixel (img.width - 1 - x) y
  rw [range_map_getD _ (row_major_lt hx hy)]
  show img.getPixel (img.width - 1 - (y * img.width + x) % img.width)
    ((y * img.width + x) / img.width) = _
  rw [row_major_mod _ hx, row_major_div _ hx]

/-- C3: for every character, destination layout and eye state, compose
issues exactly eight draw commands in the fixed total order body
shadow to the body slot, feet shadow to feet back, feet shadow to
feet, feet value to feet back, body value to body, the selected eye to
first eyes, the horizontally mirrored eye to second eyes, feet value
to feet; the canvas starts as a freshly allocated fully transparent
buffer sized to the layout container and each draw overlays the
resized source in sequence, so later draws occlude earlier ones. -/
theorem compose_layers_order (tee : Tee) (skin : Skin) (et : EyeType) (eye : Image)
    (rs : Image → Nat → Nat → Image) (ov : Image → Image → Int → Int → Image)
    (hget : tee.get_eye et = some eye) :
    tee.compose_layers skin et = some
      [⟨tee.body.shadow, skin.body, tee.used_uv.body_shadow⟩,
       ⟨tee.feet.shadow, skin.feet_back, tee.used_uv.feet_shadow⟩,
       ⟨tee.feet.shadow, skin.feet, tee.used_uv.feet_shadow⟩,
       ⟨tee.feet.value, skin.feet_back, tee.used_uv.feet⟩,
       ⟨tee.body.value, skin.body, tee.used_uv.body⟩,
       ⟨eye, skin.first_eyes, tee.used_uv.eyes.get 0⟩,
       ⟨flip_horizontal eye, skin.second_eyes, tee.used_uv.eyes.get 0⟩,
       ⟨tee.feet.value, skin.feet, tee.used_uv.feet⟩] ∧
    tee.compose rs ov skin et = some
      (([⟨tee.body.shadow, skin.body, tee.used_uv.body_shadow⟩,
         ⟨tee.feet.shadow, skin.feet_back, tee.used_uv.feet_shadow⟩,
         ⟨tee.feet.shadow, skin.feet, tee.used_uv.feet_shadow⟩,
         ⟨tee.feet.value, skin.feet_back, tee.used_uv.feet⟩,
         ⟨tee.body.value, skin.body, tee.used_uv.body⟩,
         ⟨eye, skin.first_eyes, tee.used_uv.eyes.get 0⟩,
         ⟨flip_horizontal eye, skin.second_eyes, tee.used_uv.eyes.get 0⟩,
         ⟨tee.feet.value, skin.feet, tee.used_uv.feet⟩] : List Draw).foldl
        (composeStep rs ov) (blankCanvas skin.container)) ∧
    (blankCanvas skin.container).width = skin.container.1 ∧
    (blankCanvas skin.container).height = skin.container.2 ∧
    (∀ p ∈ (blankCanvas skin.container).pixels, p = Pixel.transparent) := by
  refine ⟨compose_layers_eq tee skin et eye hget, ?_, rfl, rfl,
    fun p hp => List.eq_of_mem_replicate hp⟩
  rw [Tee.compose.eq_def, hget]
  rfl

/-- Witness for C3: composing the concrete unit Tee with the default
destination layout and Normal eyes issues the eight draw commands in
order. -/
theorem compose_layers_order_witness :
    teeUnit.get_eye EyeType.Normal = some img1 ∧
    teeUnit.compose_layers TEE_SKIN_LAYOUT EyeType.Normal = some
      [⟨img1, TEE_SKIN_LAYOUT.body, part1⟩,
       ⟨img1, TEE_SKIN_LAYOUT.feet_back, part1⟩,
       ⟨img1, TEE_SKIN_LAYOUT.feet, part1⟩,
       ⟨img1, TEE_SKIN_LAYOUT.feet_back, part1⟩,
       ⟨img1, TEE_SKIN_LAYOUT.body, part1⟩,
       ⟨img1, TEE_SKIN_LAYOUT.first_eyes, part1⟩,
       ⟨flip_horizontal img1, TEE_SKIN_LAYOUT.second_eyes, part1⟩,
       ⟨img1, TEE_SKIN_LAYOUT.feet, part1⟩] :=
  ⟨by decide,
   (compose_layers_order teeUnit TEE_SKIN_LAYOUT EyeType.Normal img1
     (fun i _ _ => i) (fun c _ _ _ => c) (by decide)).1⟩

/-- C7: for every character, destination layout and eye state, the
layer drawn into the second eyes slot (position seven in the fixed
draw order) is exactly the horizontal mirror of the layer drawn into
the first eyes slot (position six), where the mirror of an image has
the same dimensions and carries pixel `(width - 1 - x, y)` at `(x, y)`. -/
theorem second_eyes_mirror (tee : Tee) (skin : Skin) (et : EyeType) (eye : Image)
    (hget : tee.get_eye et = some eye) :
    (((tee.compose_layers skin et).getD []).getD 5 dDummy).slot = skin.first_eyes ∧
    (((tee.compose_layers skin et).getD []).getD 6 dDummy).slot = skin.second_eyes ∧
    (((tee.compose_layers skin et).getD []).getD 5 dDummy).layer = eye ∧
    (((tee.compose_layers skin et).getD []).getD 6 dDummy).layer =
      flip_horizontal ((((tee.compose_layers skin et).getD []).getD 5 dDummy).layer) ∧
    (flip_horizontal eye).width = eye.width ∧
    (flip_horizontal eye).height = eye.height ∧
    (∀ x y, x < eye.width → y < eye.height →
      (flip_horizontal eye).getPixel x y = eye.getPixel (eye.width - 1 - x) y) := by
  rw [compose_layers_eq tee skin et eye hget]
  exact ⟨rfl, rfl, rfl, rfl, rfl, rfl, fun x y hx hy => flip_horizontal_getPixel eye x y hx hy⟩

/-- Witness for C7 at the concrete unit Tee with Happy eyes. -/
theorem second_eyes_mirror_witness :
    teeUnit.get_eye EyeType.Happy = some img1 ∧
    (((teeUnit.compose_layers TEE_SKIN_LAYOUT EyeType.Happy).getD []).getD 6 dDummy).layer =
      flip_horizontal
        ((((teeUnit.compose_layers TEE_SKIN_LAYOUT EyeType.Happy).getD []).getD 5
          dDummy).layer) :=
  ⟨by decide,
   (second_eyes_mirror teeUnit TEE_SKIN_LAYOUT EyeType.Happy img1 (by decide)).2.2.2.1⟩

/-- C8 (amended): for each draw performed by compose, the source
sub-image is resized to the slot's target size before being overlaid
at the slot's position, where the target size is the draw's recorded
source-region size scaled by the slot's factor — the scaled components
truncate toward zero whenever they are nonnegative and below `2^32`
(the `as u32` cast saturates otherwise) — and for the two eye draws
the recorded source region is the first (Normal) eye region of the
layout, regardless of the selected eye state. -/
theorem compose_resize_target (tee : Tee) (skin : Skin) (et : EyeType) (eye : Image)
    (hget : tee.get_eye et = some eye) :
    (∀ (rs : Image → Nat → Nat → Image) (ov : Image → Image → Int → Int → Image)
        (canvas : Image) (d : Draw),
      composeStep rs ov canvas d =
        ov canvas
          (rs d.layer (scale (d.uv.w, d.uv.h) d.slot.factor).1
            (scale (d.uv.w, d.uv.h) d.slot.factor).2)
          d.slot.pos.1 d.slot.pos.2) ∧
    (∀ (rs : Image → Nat → Nat → Image) (ov : Image → Image → Int → Int → Image),
      tee.compose rs ov skin et =
        some (((tee.compose_layers skin et).getD []).foldl (composeStep rs ov)
          (blankCanvas skin.container))) ∧
    (((tee.compose_layers skin et).getD []).getD 5 dDummy).uv = tee.used_uv.eyes.get 0 ∧
    (((tee.compose_layers skin et).getD []).getD 6 dDummy).uv = tee.used_uv.eyes.get 0 ∧
    (∀ (w h : Nat) (f : ℚ), 0 ≤ f → (w : ℚ) * f < (U32 : ℚ) → (h : ℚ) * f < (U32 : ℚ) →
      scale (w, h) f = ((⌊(w : ℚ) * f⌋).toNat, (⌊(h : ℚ) * f⌋).toNat)) := by
  refine ⟨fun rs ov canvas d => rfl, fun rs ov => ?_, ?_, ?_, ?_⟩
  · rw [compose_layers_eq tee skin et eye hget, Tee.compose.eq_def, hget]
    rfl
  · rw [compose_layers_eq tee skin et eye hget]
    rfl
  · rw [compose_layers_eq tee skin et eye hget]
    rfl
  · intro w h f hf hw hh
    have key : ∀ (n : Nat), (n : ℚ) * f < (U32 : ℚ) →
        rustAsU32 ((n : ℚ) * f) = (⌊(n : ℚ) * f⌋).toNat := by
      intro n hn
      have h1 : (0 : ℚ) ≤ (n : ℚ) * f := mul_nonneg (by positivity) hf
      unfold rustAsU32 truncQ
      rw [if_pos h1]
      have hlt : ⌊(n : ℚ) * f⌋ < ((U32 : Nat) : ℤ) := Int.floor_lt.mpr (by exact_mod_cast hn)
      have hle : (⌊(n : ℚ) * f⌋).toNat ≤ U32 - 1 := by
        have h2 : ⌊(n : ℚ) * f⌋ ≤ ((U32 - 1 : Nat) : ℤ) := by
          have : ((U32 : Nat) : ℤ) = ((U32 - 1 : Nat) : ℤ) + 1 := by
            norm_num [U32]
          omega
        calc (⌊(n : ℚ) * f⌋).toNat ≤ ((U32 - 1 : Nat) : ℤ).toNat := Int.toNat_le_toNat h2
          _ = U32 - 1 := Int.toNat_natCast _
      exact min_eq_left hle
    show (rustAsU32 ((w : ℚ) * f), rustAsU32 ((h : ℚ) * f)) = _
    rw [key w hw, key h hh]

/-- Witness for C8's amended claim at the concrete unit Tee and the
default destination layout. -/
theorem compose_resize_target_witness :
    teeUnit.get_eye EyeType.Normal = some img1 ∧
    ((0 : ℚ) ≤ 1 ∧ ((2 : Nat) : ℚ) * 1 < (U32 : ℚ)) ∧
    scale (2, 2) 1 = ((⌊((2 : Nat) : ℚ) * 1⌋).toNat, (⌊((2 : Nat) : ℚ) * 1⌋).toNat) :=
  ⟨by decide, ⟨by norm_num, by norm_num [U32]⟩,
   (compose_resize_target teeUnit TEE_SKIN_LAYOUT EyeType.Normal img1 (by decide)).2.2.2.2
     2 2 1 (by norm_num) (by norm_num [U32]) (by norm_num [U32])⟩

/-- Counterexample for C8 as stated: in a layout whose Normal eye
region is 2 by 2 while the Happy eye region is 1 by 1, composing with
Happy eyes issues the first-eye draw with the Normal region (2 by 2)
as its recorded source region, so the computed target size is (2, 2)
and not the (1, 1) the claim demands from the selected eye state's
region. -/
theorem compose_eye_region_counterexample :
    Tee.new_with_uv (blankCanvas (4, 4)) uvC8 = Res.ok teeC8 ∧
    ((teeC8.compose_layers skinC8 EyeType.Happy).getD []).getD 5 dDummy =
      ⟨img1, skinC8.first_eyes, ⟨0, 0, 2, 2⟩⟩ ∧
    uvC8.eyes.p3 = part1 ∧
    scale (2, 2) skinC8.first_eyes.factor = (2, 2) ∧
    scale (part1.w, part1.h) skinC8.first_eyes.factor = (1, 1) ∧
    ((2, 2) : Nat × Nat) ≠ (1, 1) := by
  refine ⟨by decide, ?_, rfl, ?_, ?_, by decide⟩
  · rw [compose_layers_eq teeC8 skinC8 EyeType.Happy img1 (by decide)]
    rfl
  · show scale (2, 2) 1 = (2, 2)
    norm_num [scale, rustAsU32, truncQ, U32]
    decide
  · show scale (1, 1) 1 = (1, 1)
    norm_num [scale, rustAsU32, truncQ, U32]

/-- Witness for C9: recoloring only the body of the concrete unit Tee
transforms the body buffer, keeps the feet buffer and the eye array,
and is unchanged under a permutation of a two-element selection. -/
theorem apply_hsl_to_parts_spec_witness :
    List.Nodup [TeePart.Body, TeePart.Feet] ∧
    (teeUnit.apply_hsl_to_parts (0, 0, 1) [TeePart.Body, TeePart.Feet]).getPart TeePart.Body =
      img_hsl_transform (teeUnit.getPart TeePart.Body) (0, 0, 1) ∧
    (teeUnit.apply_hsl_to_parts (0, 0, 1) [TeePart.Body, TeePart.Feet]).getPart TeePart.Hand =
      teeUnit.getPart TeePart.Hand ∧
    (teeUnit.apply_hsl_to_parts (0, 0, 1) [TeePart.Body, TeePart.Feet]).eye = teeUnit.eye ∧
    teeUnit.apply_hsl_to_parts (0, 0, 1) [TeePart.Feet, TeePart.Body] =
      teeUnit.apply_hsl_to_parts (0, 0, 1) [TeePart.Body, TeePart.Feet] :=
  ⟨by decide,
   (apply_hsl_to_parts_spec teeUnit (0, 0, 1) [TeePart.Body, TeePart.Feet] (by decide)).1
     TeePart.Body (by decide),
   (apply_hsl_to_parts_spec teeUnit (0, 0, 1) [TeePart.Body, TeePart.Feet] (by decide)).2.1
     TeePart.Hand (by decide),
   (apply_hsl_to_parts_spec teeUnit (0, 0, 1) [TeePart.Body, TeePart.Feet] (by decide)).2.2.1,
   (apply_hsl_to_parts_spec teeUnit (0, 0, 1) [TeePart.Body, TeePart.Feet] (by decide)).2.2.2.2
     [TeePart.Feet, TeePart.Body] (by decide)⟩

end TeeMorphosis
